import Mathlib

/-!
Verification of the topic priority scoring engine.

Shallow embedding of `app/services/priority.py` (`calculate_priority_scores`)
together with the question data model of `app/models.py` and the route wrapper
`app/routes/priority.py`.

Modelling conventions:
* Python floats are modelled as exact rationals (`ℚ`).
* Python `round(x, n)` and `f"{x:.nf}"` formatting round half-to-even, which
  `roundTo` reproduces at the rational level.
* The SQL aggregation query (filter by `subject_id`, `GROUP BY topic`,
  `count(id)`, `avg(marks)`) is given exact list semantics in `queryResults`;
  the group iteration order is fixed to first occurrence of each topic, a
  deterministic choice for the implementation-defined `GROUP BY` order.
* Exceptions are made explicit with `Except`: a storage failure while running
  the query is the `.error` case of the `db` argument, and Python's
  `ZeroDivisionError` in weight normalization is `PyError.zeroDivision`.
* CPython's `list.sort(key=..., reverse=True)` is a stable descending sort;
  `sortByScoreDesc` is a stable descending insertion sort, which produces the
  identical list (stable sorts agree extensionally).
-/

attribute [local semireducible] Rat.mul Rat.add Rat.sub Rat.inv

/-- A row of the `questions` table (`app/models.py`, class `Question`).
`created_at` and `updated_at` are never read by scoring and are omitted. -/
structure Question where
  id : ℕ
  topic : String
  marks : ℚ
  year : ℤ
  subject_id : ℤ
deriving DecidableEq, Repr

/-- Round half-to-even to an integer: Python `round` semantics.
`Int.fdiv q.num q.den` is `⌊q⌋` since `q.den > 0`. -/
def roundHalfEven (q : ℚ) : ℤ :=
  let f : ℤ := Int.fdiv q.num (q.den : ℤ)
  let frac : ℚ := q - (f : ℚ)
  if frac < 1/2 then f
  else if 1/2 < frac then f + 1
  else if f % 2 = 0 then f else f + 1

/-- Python `round(q, n)` (and `f"{q:.nf}"` formatting): round to `n` decimal
places, ties to even. -/
def roundTo (n : ℕ) (q : ℚ) : ℚ := (roundHalfEven (q * 10 ^ n) : ℚ) / 10 ^ n

/-- One row returned by the aggregation query of `priority.py` lines 26-34:
`Question.topic`, `count(Question.id)` as `frequency`, `avg(Question.marks)`
as `avg_marks`. -/
structure AggRow where
  topic : String
  frequency : ℕ
  avg_marks : ℚ
deriving DecidableEq, Repr

/-- The distinct topics of a question list in order of first occurrence: the
deterministic iteration order we fix for the SQL `GROUP BY Question.topic`. -/
def topicsOf : List Question → List String
  | [] => []
  | q :: qs => q.topic :: (topicsOf qs).filter (fun t => decide (t ≠ q.topic))

/-- Exact semantics of the query at `priority.py` lines 26-34: keep the rows
whose `subject_id` matches, group them by exact topic string, and report each
group's row count and mean of `marks`. -/
def queryResults (table : List Question) (sid : ℤ) : List AggRow :=
  let rows := table.filter (fun q => decide (q.subject_id = sid))
  (topicsOf rows).map (fun t =>
    let g := rows.filter (fun q => decide (q.topic = t))
    { topic := t, frequency := g.length,
      avg_marks := (g.map (fun q => q.marks)).sum / (g.length : ℚ) })

/-- One entry of the `topics` list in the response (dict built at lines 56-61
of `priority.py`). -/
structure TopicScore where
  topic : String
  frequency : ℕ
  avg_marks_per_year : ℚ
  priority_score : ℚ
deriving DecidableEq, Repr

/-- The `weights_used` dict of the response (lines 40-43 and 68-71). -/
structure WeightsUsed where
  frequency_weight : ℚ
  marks_weight : ℚ
deriving DecidableEq, Repr

/-- Content of the warning string built at line 21 of `priority.py`:
`f"Weights normalized from ({fw}, {mw}) to ({nfw:.3f}, {nmw:.3f})"`.
The original weights are interpolated verbatim (default `repr`); only the
normalized weights are formatted to three decimal places. -/
structure Warning where
  original_frequency_weight : ℚ
  original_marks_weight : ℚ
  normalized_frequency_weight : ℚ
  normalized_marks_weight : ℚ
deriving DecidableEq, Repr

/-- The response dict of `calculate_priority_scores`. A missing optional key
(`message`, `warning`) is `none`. -/
structure Response where
  topics : List TopicScore
  weights_used : WeightsUsed
  message : Option String
  warning : Option Warning
deriving DecidableEq, Repr

/-- Exceptions that can escape `calculate_priority_scores`. -/
inductive PyError where
  /-- `ZeroDivisionError` from `frequency_weight / total_weight` at line 19
  when the weights sum to zero. -/
  | zeroDivision
  /-- A storage-layer exception raised by the query at lines 26-34, carrying
  its message. -/
  | dbError (msg : String)
deriving DecidableEq, Repr

/-- Lines 14-23 of `priority.py`: if the weights do not sum to `1.0` within
tolerance `0.001`, divide each by the sum (raising `ZeroDivisionError` when
the sum is zero) and build the warning; otherwise keep them with no warning.
Returns the effective `(frequency_weight, marks_weight)` plus the optional
warning. -/
def normalizeWeights (frequency_weight marks_weight : ℚ) :
    Except PyError (ℚ × ℚ × Option Warning) :=
  let total_weight := frequency_weight + marks_weight
  if |total_weight - 1| > 1/1000 then
    if total_weight = 0 then .error .zeroDivision
    else
      let nfw := frequency_weight / total_weight
      let nmw := marks_weight / total_weight
      .ok (nfw, nmw,
        some ⟨frequency_weight, marks_weight, roundTo 3 nfw, roundTo 3 nmw⟩)
  else .ok (frequency_weight, marks_weight, none)

/-- Lines 49-61 of `priority.py`: each aggregation row becomes a topic entry;
`priority_score = frequency * frequency_weight + avg_marks * marks_weight`
computed from the unrounded average, then `avg_marks_per_year` is rounded to
2 decimals and `priority_score` to 3 decimals for the output. -/
def scoreRows (rows : List AggRow) (fw mw : ℚ) : List TopicScore :=
  rows.map (fun r =>
    { topic := r.topic, frequency := r.frequency,
      avg_marks_per_year := roundTo 2 r.avg_marks,
      priority_score := roundTo 3 ((r.frequency : ℚ) * fw + r.avg_marks * mw) })

/-- Stable insertion of `x` into a descending list: `x` goes after every
element with a strictly larger score and before the first element whose score
is `≤` its own, so an inserted element precedes all equal-scored elements
that followed it in the original list. -/
def insertDesc (x : TopicScore) : List TopicScore → List TopicScore
  | [] => [x]
  | y :: ys =>
      if x.priority_score < y.priority_score then y :: insertDesc x ys
      else x :: y :: ys

/-- Line 64 of `priority.py`:
`priority_scores.sort(key=lambda x: x["priority_score"], reverse=True)`.
CPython's sort is stable; a stable descending sort is extensionally unique,
and this stable insertion sort produces that unique result. -/
def sortByScoreDesc : List TopicScore → List TopicScore
  | [] => []
  | x :: xs => insertDesc x (sortByScoreDesc xs)

/-- `calculate_priority_scores(db, subject_id, frequency_weight, marks_weight)`
from `app/services/priority.py`. The `db` argument is the storage collaborator:
`.ok table` means the questions table is reachable with contents `table`, and
`.error msg` means the fetch raises. Weight normalization runs before the
query, exactly as in the source. -/
def calculate_priority_scores (db : Except String (List Question))
    (subject_id : ℤ) (frequency_weight : ℚ := 6/10) (marks_weight : ℚ := 4/10) :
    Except PyError Response :=
  match normalizeWeights frequency_weight marks_weight with
  | .error e => .error e
  | .ok (fw, mw, warning) =>
    match db with
    | .error msg => .error (.dbError msg)
    | .ok table =>
      let results := queryResults table subject_id
      if results = [] then
        .ok { topics := []
              weights_used := ⟨roundTo 3 fw, roundTo 3 mw⟩
              message := some ("No questions found for subject_id: " ++
                toString subject_id)
              warning := none }
      else
        .ok { topics := sortByScoreDesc (scoreRows results fw mw)
              weights_used := ⟨roundTo 3 fw, roundTo 3 mw⟩
              message := none
              warning := warning }

/-- Size of the group of questions in `l` whose topic is exactly `t`: the
`count(Question.id)` aggregate of one `GROUP BY` group. -/
def countTopic (l : List Question) (t : String) : ℕ :=
  (l.filter (fun q => decide (q.topic = t))).length

instance {ε α : Type} [DecidableEq ε] [DecidableEq α] : DecidableEq (Except ε α) :=
  fun x y =>
    match x, y with
    | .ok a, .ok b => decidable_of_iff (a = b) (by simp)
    | .ok _, .error _ => .isFalse (by simp)
    | .error _, .ok _ => .isFalse (by simp)
    | .error e, .error f => decidable_of_iff (e = f) (by simp)

/-- The question rows of the spec's concrete scenario, stored for subject 1:
`[("Networking",10,2024,1), ("Networking",15,2023,1),
("DB Normalization",12,2024,1), ("DB Normalization",8,2022,1)]`. -/
def scenarioDb : List Question :=
  [⟨1, "Networking", 10, 2024, 1⟩,
   ⟨2, "Networking", 15, 2023, 1⟩,
   ⟨3, "DB Normalization", 12, 2024, 1⟩,
   ⟨4, "DB Normalization", 8, 2022, 1⟩]

/-- A one-question table used to exercise weight normalization on a subject
that has data. -/
def singleQuestionDb : List Question := [⟨1, "A", 10, 2024, 1⟩]

/-- Claim C1: on the concrete scenario for subject 1 with default weights 0.6/0.4,
the topics come out in the order Networking, DB Normalization, with
frequency 2 / average 12.5 / score 6.2 for Networking and frequency 2 /
average 10.0 / score 5.2 for DB Normalization; weights are unchanged and no
message or warning is present. -/
theorem scenario_scores :
    calculate_priority_scores (.ok scenarioDb) 1 (6/10) (4/10) =
      .ok { topics := [⟨"Networking", 2, 25/2, 31/5⟩,
                       ⟨"DB Normalization", 2, 10, 26/5⟩]
            weights_used := ⟨3/5, 2/5⟩
            message := none
            warning := none } := by
  decide

theorem insertDesc_perm (x : TopicScore) (l : List TopicScore) :
    List.Perm (insertDesc x l) (x :: l) := by
  induction l with
  | nil => exact List.Perm.refl _
  | cons y ys ih =>
    unfold insertDesc
    by_cases hc : x.priority_score < y.priority_score
    · rw [if_pos hc]
      exact (ih.cons y).trans (List.Perm.swap x y ys)
    · rw [if_neg hc]

theorem sortByScoreDesc_perm (l : List TopicScore) :
    List.Perm (sortByScoreDesc l) l := by
  induction l with
  | nil => exact List.Perm.refl _
  | cons x xs ih =>
    exact (insertDesc_perm x (sortByScoreDesc xs)).trans (ih.cons x)

theorem pairwise_insertDesc (x : TopicScore) (l : List TopicScore)
    (h : l.Pairwise (fun a b => b.priority_score ≤ a.priority_score)) :
    (insertDesc x l).Pairwise (fun a b => b.priority_score ≤ a.priority_score) := by
  induction l with
  | nil => simp [insertDesc]
  | cons y ys ih =>
    rcases List.pairwise_cons.mp h with ⟨hy, hys⟩
    unfold insertDesc
    by_cases hc : x.priority_score < y.priority_score
    · rw [if_pos hc]
      refine List.pairwise_cons.mpr ⟨?_, ih hys⟩
      intro z hz
      rcases List.mem_cons.mp ((insertDesc_perm x ys).mem_iff.mp hz) with hz | hz
      · exact hz ▸ le_of_lt hc
      · exact hy z hz
    · rw [if_neg hc]
      refine List.pairwise_cons.mpr ⟨?_, h⟩
      intro z hz
      rcases List.mem_cons.mp hz with hz | hz
      · exact hz ▸ le_of_not_lt hc
      · exact le_trans (hy z hz) (le_of_not_lt hc)

theorem sortByScoreDesc_pairwise (l : List TopicScore) :
    (sortByScoreDesc l).Pairwise (fun a b => b.priority_score ≤ a.priority_score) := by
  induction l with
  | nil => simp [sortByScoreDesc]
  | cons x xs ih => exact pairwise_insertDesc x _ ih

theorem filter_insertDesc (x : TopicScore) (l : List TopicScore) (c : ℚ) :
    (insertDesc x l).filter (fun t => decide (t.priority_score = c)) =
      (x :: l).filter (fun t => decide (t.priority_score = c)) := by
  induction l with
  | nil => rfl
  | cons y ys ih =>
    unfold insertDesc
    by_cases hc : x.priority_score < y.priority_score
    · rw [if_pos hc]
      by_cases hx : x.priority_score = c
      · have hy : ¬ y.priority_score = c := fun hy =>
          absurd (hx.trans hy.symm) (ne_of_lt hc)
        simp [List.filter_cons, hx, hy] at ih ⊢
        exact ih
      · by_cases hy : y.priority_score = c <;>
          simp [List.filter_cons, hx, hy] at ih ⊢ <;> exact ih
    · rw [if_neg hc]

theorem sortByScoreDesc_filter (l : List TopicScore) (c : ℚ) :
    (sortByScoreDesc l).filter (fun t => decide (t.priority_score = c)) =
      l.filter (fun t => decide (t.priority_score = c)) := by
  induction l with
  | nil => rfl
  | cons x xs ih =>
    show (insertDesc x (sortByScoreDesc xs)).filter _ = _
    rw [filter_insertDesc]
    by_cases hx : x.priority_score = c <;> simp [List.filter_cons, hx, ih]

theorem sortByScoreDesc_eq_nil_iff (l : List TopicScore) :
    sortByScoreDesc l = [] ↔ l = [] := by
  constructor <;> intro h
  · have := (sortByScoreDesc_perm l).length_eq
    rw [h] at this
    exact List.length_eq_zero.mp this.symm
  · rw [h]; rfl

theorem sum_map_addf {α : Type} (L : List α) (f g : α → ℕ) :
    (L.map (fun a => f a + g a)).sum = (L.map f).sum + (L.map g).sum := by
  induction L with
  | nil => rfl
  | cons a L ih => simp [ih]; omega

theorem sum_map_ite_eq (L : List String) (a : String) :
    (L.map (fun t => if a = t then 1 else 0)).sum = L.count a := by
  induction L with
  | nil => rfl
  | cons b L ih =>
    by_cases h : a = b
    · subst h; simp [List.count_cons, ih]; omega
    · simp [List.count_cons, h, ih]

theorem countTopic_cons (q : Question) (l : List Question) (t : String) :
    countTopic (q :: l) t = countTopic l t + (if q.topic = t then 1 else 0) := by
  by_cases h : q.topic = t <;> simp [countTopic, List.filter_cons, h]

theorem sum_map_countTopic (L : List String) (l : List Question)
    (hnd : L.Nodup) (hcov : ∀ q ∈ l, q.topic ∈ L) :
    (L.map (countTopic l)).sum = l.length := by
  induction l with
  | nil =>
    have hz : L.map (countTopic []) = L.map (fun _ => 0) :=
      List.map_congr_left (fun t _ => rfl)
    simp [hz]
  | cons q qs ih =>
    have hstep : (L.map (countTopic (q :: qs))).sum =
        (L.map (fun t => countTopic qs t + (if q.topic = t then 1 else 0))).sum := by
      congr 1
      exact List.map_congr_left (fun t _ => countTopic_cons q qs t)
    rw [hstep, sum_map_addf, sum_map_ite_eq,
      ih (fun q' hq' => hcov q' (List.mem_cons_of_mem _ hq')),
      List.count_eq_one_of_mem hnd (hcov q (List.mem_cons_self q qs))]
    simp

theorem topicsOf_nodup (l : List Question) : (topicsOf l).Nodup := by
  induction l with
  | nil => simp [topicsOf]
  | cons q qs ih =>
    refine List.nodup_cons.mpr ⟨?_, ih.filter _⟩
    intro hmem
    have := List.of_mem_filter hmem
    simp at this

theorem mem_topicsOf {l : List Question} {q : Question} (h : q ∈ l) :
    q.topic ∈ topicsOf l := by
  induction l with
  | nil => cases h
  | cons q' qs ih =>
    rcases List.mem_cons.mp h with h | h
    · rw [h]; exact List.mem_cons_self _ _
    · by_cases ht : q.topic = q'.topic
      · rw [ht]; exact List.mem_cons_self _ _
      · exact List.mem_cons_of_mem _ (List.mem_filter.mpr ⟨ih h, by simpa using ht⟩)

theorem topicsOf_eq_nil_iff (l : List Question) : topicsOf l = [] ↔ l = [] := by
  cases l with
  | nil => simp [topicsOf]
  | cons q qs => simp [topicsOf]

theorem queryResults_eq_nil_iff (db : List Question) (sid : ℤ) :
    queryResults db sid = [] ↔
      db.filter (fun q => decide (q.subject_id = sid)) = [] := by
  unfold queryResults
  rw [List.map_eq_nil_iff]
  exact topicsOf_eq_nil_iff _

theorem queryResults_map_frequency (db : List Question) (sid : ℤ) :
    ((queryResults db sid).map (fun r => r.frequency)).sum =
      (db.filter (fun q => decide (q.subject_id = sid))).length := by
  unfold queryResults
  rw [List.map_map]
  exact sum_map_countTopic _ _ (topicsOf_nodup _) (fun q hq => mem_topicsOf hq)

theorem normalizeWeights_near {fw mw : ℚ} (h : ¬ |fw + mw - 1| > 1/1000) :
    normalizeWeights fw mw = .ok (fw, mw, none) := by
  unfold normalizeWeights
  rw [if_neg h]

theorem normalizeWeights_far {fw mw : ℚ} (h : |fw + mw - 1| > 1/1000)
    (h0 : fw + mw ≠ 0) :
    normalizeWeights fw mw = .ok (fw / (fw + mw), mw / (fw + mw),
      some ⟨fw, mw, roundTo 3 (fw / (fw + mw)), roundTo 3 (mw / (fw + mw))⟩) := by
  unfold normalizeWeights
  rw [if_pos h, if_neg h0]

theorem normalizeWeights_zero {fw mw : ℚ} (h0 : fw + mw = 0) :
    normalizeWeights fw mw = .error .zeroDivision := by
  unfold normalizeWeights
  rw [h0]
  norm_num

theorem normalizeWeights_ok_of_ne {fw mw : ℚ} (h0 : fw + mw ≠ 0) :
    ∃ nfw nmw w, normalizeWeights fw mw = .ok (nfw, nmw, w) := by
  by_cases h : |fw + mw - 1| > 1/1000
  · exact ⟨_, _, _, normalizeWeights_far h h0⟩
  · exact ⟨_, _, _, normalizeWeights_near h⟩

theorem calculate_ok_inv {db : List Question} {sid : ℤ} {fw mw : ℚ}
    {resp : Response}
    (h : calculate_priority_scores (.ok db) sid fw mw = .ok resp) :
    ∃ nfw nmw w, normalizeWeights fw mw = .ok (nfw, nmw, w) ∧
      ((queryResults db sid = [] ∧
        resp = ⟨[], ⟨roundTo 3 nfw, roundTo 3 nmw⟩,
          some ("No questions found for subject_id: " ++ toString sid), none⟩) ∨
       (queryResults db sid ≠ [] ∧
        resp = ⟨sortByScoreDesc (scoreRows (queryResults db sid) nfw nmw),
          ⟨roundTo 3 nfw, roundTo 3 nmw⟩, none, w⟩)) := by
  unfold calculate_priority_scores at h
  rcases hn : normalizeWeights fw mw with e | ⟨nfw, nmw, w⟩
  · rw [hn] at h; exact absurd h (by simp)
  · rw [hn] at h
    dsimp only at h
    refine ⟨nfw, nmw, w, rfl, ?_⟩
    by_cases hq : queryResults db sid = []
    · rw [if_pos hq] at h
      exact Or.inl ⟨hq, (Except.ok.injEq _ _ ▸ h.symm :)⟩
    · rw [if_neg hq] at h
      exact Or.inr ⟨hq, (Except.ok.injEq _ _ ▸ h.symm :)⟩

/-- Claim C2: in every successful result of `calculate_priority_scores`, the
topics list is pairwise sorted by (already-rounded) `priority_score`
descending, and it is a stable rearrangement of the scored grouping-order
list: for every score value, the entries carrying that score appear in
exactly the order produced by the grouping step. Determinism is immediate
since the embedding is a pure function of its input. -/
theorem topics_sorted_desc (db : List Question) (sid : ℤ) (fw mw : ℚ)
    (resp : Response)
    (h : calculate_priority_scores (.ok db) sid fw mw = .ok resp) :
    resp.topics.Pairwise (fun a b => b.priority_score ≤ a.priority_score) ∧
    ∃ nfw nmw w, normalizeWeights fw mw = .ok (nfw, nmw, w) ∧
      ∀ c : ℚ, resp.topics.filter (fun t => decide (t.priority_score = c)) =
        (scoreRows (queryResults db sid) nfw nmw).filter
          (fun t => decide (t.priority_score = c)) := by
  rcases calculate_ok_inv h with ⟨nfw, nmw, w, hn, ⟨hq, rfl⟩ | ⟨hq, rfl⟩⟩
  · refine ⟨by simp, nfw, nmw, w, hn, ?_⟩
    intro c
    rw [hq]
    simp [scoreRows]
  · exact ⟨sortByScoreDesc_pairwise _, nfw, nmw, w, hn,
      fun c => sortByScoreDesc_filter _ c⟩

/-- Witness for C2 at the concrete scenario input. -/
theorem topics_sorted_desc_witness :
    List.Pairwise (fun a b => b.priority_score ≤ a.priority_score)
      ([⟨"Networking", 2, 25/2, 31/5⟩, ⟨"DB Normalization", 2, 10, 26/5⟩] :
        List TopicScore) :=
  (topics_sorted_desc scenarioDb 1 (6/10) (4/10)
    ⟨[⟨"Networking", 2, 25/2, 31/5⟩, ⟨"DB Normalization", 2, 10, 26/5⟩],
      ⟨3/5, 2/5⟩, none, none⟩ (by decide)).1

/-- Claim C3: a subject with zero matching question rows is not an error:
the call returns a response with an empty topics list and the
"no questions found" message; and in every successful response the message
field is present exactly when the topics list is empty. The hypothesis
`fw + mw ≠ 0` excludes the unrelated `ZeroDivisionError` of weight
normalization, which fires before the query regardless of the subject. -/
theorem empty_subject_soft (db : List Question) (sid : ℤ) (fw mw : ℚ)
    (hw : fw + mw ≠ 0) :
    (db.filter (fun q => decide (q.subject_id = sid)) = [] →
      ∃ resp, calculate_priority_scores (.ok db) sid fw mw = .ok resp ∧
        resp.topics = [] ∧
        resp.message =
          some ("No questions found for subject_id: " ++ toString sid)) ∧
    (∀ resp, calculate_priority_scores (.ok db) sid fw mw = .ok resp →
      (resp.message.isSome ↔ resp.topics = [])) := by
  constructor
  · intro hfil
    rcases normalizeWeights_ok_of_ne hw with ⟨nfw, nmw, w, hn⟩
    have hq : queryResults db sid = [] := (queryResults_eq_nil_iff db sid).mpr hfil
    refine ⟨⟨[], ⟨roundTo 3 nfw, roundTo 3 nmw⟩,
      some ("No questions found for subject_id: " ++ toString sid), none⟩,
      ?_, rfl, rfl⟩
    unfold calculate_priority_scores
    rw [hn]
    dsimp only
    rw [if_pos hq]
  · intro resp h
    rcases calculate_ok_inv h with ⟨nfw, nmw, w, hn, ⟨hq, rfl⟩ | ⟨hq, rfl⟩⟩
    · simp
    · simp [sortByScoreDesc_eq_nil_iff, scoreRows, List.map_eq_nil_iff]
      exact hq

/-- Witness for C3: subject 2 has no rows in the scenario table. -/
theorem empty_subject_soft_witness :
    ((6:ℚ)/10 + 4/10 ≠ 0) ∧
    ((Response.mk [] ⟨3/5, 2/5⟩ (some "No questions found for subject_id: 2")
        none).message.isSome ↔
      (Response.mk [] ⟨3/5, 2/5⟩ (some "No questions found for subject_id: 2")
        none).topics = []) :=
  ⟨by decide,
    (empty_subject_soft scenarioDb 2 (6/10) (4/10) (by decide)).2 _ (by decide)⟩

/-- Counterexample to claim C4 as stated: with weights (0.3, 0.3) and a
subject that has zero questions, normalization changed the weights
(`weights_used` becomes (0.5, 0.5) and the tolerance test fires), yet the
early-return response contains no warning field. -/
theorem warning_missing_on_empty_cx :
    calculate_priority_scores (.ok []) 1 (3/10) (3/10) =
      .ok { topics := []
            weights_used := ⟨1/2, 1/2⟩
            message := some "No questions found for subject_id: 1"
            warning := none } ∧
    |(3/10 : ℚ) + 3/10 - 1| > 1/1000 := by
  decide

/-- Claim C4 (amended): for weights with nonzero sum, the warning field of a
successful response is present if and only if `|fw + mw - 1| > 0.001` AND the
subject has at least one matching question; when the subject has zero
matching questions, the early return at lines 37-45 never includes a
warning field, even when the weights were normalized. -/
theorem warning_iff_normalized (db : List Question) (sid : ℤ) (fw mw : ℚ)
    (resp : Response) (hw : fw + mw ≠ 0)
    (h : calculate_priority_scores (.ok db) sid fw mw = .ok resp) :
    (db.filter (fun q => decide (q.subject_id = sid)) ≠ [] →
      (resp.warning.isSome ↔ |fw + mw - 1| > 1/1000)) ∧
    (db.filter (fun q => decide (q.subject_id = sid)) = [] →
      resp.warning = none) := by
  rcases calculate_ok_inv h with ⟨nfw, nmw, w, hn, ⟨hq, rfl⟩ | ⟨hq, rfl⟩⟩
  · constructor
    · intro hfil
      exact absurd ((queryResults_eq_nil_iff db sid).mp hq) hfil
    · intro _
      rfl
  · constructor
    · intro _
      by_cases hfar : |fw + mw - 1| > 1/1000
      · rw [normalizeWeights_far hfar hw] at hn
        simp only [Except.ok.injEq, Prod.mk.injEq] at hn
        obtain ⟨-, -, h3⟩ := hn
        subst h3
        simpa using hfar
      · rw [normalizeWeights_near hfar] at hn
        simp only [Except.ok.injEq, Prod.mk.injEq] at hn
        obtain ⟨-, -, h3⟩ := hn
        subst h3
        simpa using hfar
    · intro hfil
      exact absurd ((queryResults_eq_nil_iff db sid).mpr hfil) hq

/-- Witness for C4 (amended): the scenario table with weights (0.3, 0.3). -/
theorem warning_iff_normalized_witness :
    ((3:ℚ)/10 + 3/10 ≠ 0) ∧
    ((scenarioDb.filter (fun q => decide (q.subject_id = 1)) ≠ [] →
      ((Response.mk
          [⟨"Networking", 2, 25/2, 29/4⟩, ⟨"DB Normalization", 2, 10, 6⟩]
          ⟨1/2, 1/2⟩ none
          (some ⟨3/10, 3/10, 1/2, 1/2⟩)).warning.isSome ↔
        |(3:ℚ)/10 + 3/10 - 1| > 1/1000)) ∧
     (scenarioDb.filter (fun q => decide (q.subject_id = 1)) = [] →
      (Response.mk
          [⟨"Networking", 2, 25/2, 29/4⟩, ⟨"DB Normalization", 2, 10, 6⟩]
          ⟨1/2, 1/2⟩ none
          (some ⟨3/10, 3/10, 1/2, 1/2⟩)).warning = none)) :=
  ⟨by decide, warning_iff_normalized scenarioDb 1 (3/10) (3/10) _
    (by decide) (by decide)⟩

/-- Counterexample to claim C5 as stated: calling with weights
(0.1234, 0.2) records a warning whose original frequency weight is 0.1234
itself — four decimal digits, not the 3-decimal-formatted 0.123 — because
the f-string at line 21 interpolates the originals verbatim and applies
`:.3f` only to the normalized values. -/
theorem warning_original_unrounded_cx :
    calculate_priority_scores (.ok singleQuestionDb) 1 (1234/10000) (2/10) =
      .ok { topics := [⟨"A", 1, 10, 3283/500⟩]
            weights_used := ⟨191/500, 309/500⟩
            message := none
            warning := some ⟨617/5000, 1/5, 191/500, 309/500⟩ } ∧
    roundTo 3 (617/5000) ≠ 617/5000 := by
  decide

/-- Claim C5 (amended): for weights whose sum is nonzero and differs from 1
by more than 0.001, every successful call rescales both weights so they sum
to exactly 1 and reports the rescaled pair, rounded to 3 decimals, in
`weights_used`; and, when the subject has at least one question, the
response records a warning in which the original values appear verbatim
(unrounded) while the normalized values are formatted to 3 decimal
places. -/
theorem normalization_rescales (fw mw : ℚ) (db : List Question) (sid : ℤ)
    (resp : Response)
    (hfar : |fw + mw - 1| > 1/1000) (h0 : fw + mw ≠ 0)
    (h : calculate_priority_scores (.ok db) sid fw mw = .ok resp) :
    fw / (fw + mw) + mw / (fw + mw) = 1 ∧
    resp.weights_used =
      ⟨roundTo 3 (fw / (fw + mw)), roundTo 3 (mw / (fw + mw))⟩ ∧
    (db.filter (fun q => decide (q.subject_id = sid)) ≠ [] →
      resp.warning =
        some ⟨fw, mw, roundTo 3 (fw / (fw + mw)), roundTo 3 (mw / (fw + mw))⟩) := by
  have hsum : fw / (fw + mw) + mw / (fw + mw) = 1 := by
    rw [div_add_div_same, div_self h0]
  rcases calculate_ok_inv h with ⟨nfw, nmw, w, hn, ⟨hq, rfl⟩ | ⟨hq, rfl⟩⟩ <;>
    rw [normalizeWeights_far hfar h0] at hn <;>
    simp only [Except.ok.injEq, Prod.mk.injEq] at hn <;>
    obtain ⟨h1, h2, h3⟩ := hn <;>
    subst h1 <;> subst h2 <;> subst h3
  · exact ⟨hsum, rfl,
      fun hfil => absurd ((queryResults_eq_nil_iff db sid).mp hq) hfil⟩
  · exact ⟨hsum, rfl, fun _ => rfl⟩

/-- Witness for C5 (amended) at weights (0.1234, 0.2) on a one-row table. -/
theorem normalization_rescales_witness :
    (1234:ℚ)/10000 / (1234/10000 + 2/10) + (2:ℚ)/10 / (1234/10000 + 2/10) = 1 ∧
    (Response.mk [⟨"A", 1, 10, 3283/500⟩] ⟨191/500, 309/500⟩ none
        (some ⟨617/5000, 1/5, 191/500, 309/500⟩)).weights_used =
      ⟨roundTo 3 ((1234:ℚ)/10000 / (1234/10000 + 2/10)),
        roundTo 3 ((2:ℚ)/10 / (1234/10000 + 2/10))⟩ ∧
    (singleQuestionDb.filter (fun q => decide (q.subject_id = 1)) ≠ [] →
      (Response.mk [⟨"A", 1, 10, 3283/500⟩] ⟨191/500, 309/500⟩ none
          (some ⟨617/5000, 1/5, 191/500, 309/500⟩)).warning =
        some ⟨1234/10000, 2/10, roundTo 3 ((1234:ℚ)/10000 / (1234/10000 + 2/10)),
          roundTo 3 ((2:ℚ)/10 / (1234/10000 + 2/10))⟩) :=
  normalization_rescales (1234/10000) (2/10) singleQuestionDb 1 _
    (by decide) (by decide) (by decide)

/-- Claim C6: weight normalization is idempotent — when the weights already
sum to 1 within the 0.001 tolerance, every successful response carries no
warning field and `weights_used` is the input pair itself, unchanged up to
the 3-decimal output rounding. -/
theorem weights_idempotent (fw mw : ℚ) (db : List Question) (sid : ℤ)
    (resp : Response) (hnear : |fw + mw - 1| ≤ 1/1000)
    (h : calculate_priority_scores (.ok db) sid fw mw = .ok resp) :
    resp.warning = none ∧
    resp.weights_used = ⟨roundTo 3 fw, roundTo 3 mw⟩ := by
  have hn' : normalizeWeights fw mw = .ok (fw, mw, none) :=
    normalizeWeights_near (not_lt.mpr hnear)
  rcases calculate_ok_inv h with ⟨nfw, nmw, w, hn, ⟨hq, rfl⟩ | ⟨hq, rfl⟩⟩ <;>
    rw [hn'] at hn <;>
    simp only [Except.ok.injEq, Prod.mk.injEq] at hn <;>
    obtain ⟨h1, h2, h3⟩ := hn <;>
    subst h1 <;> subst h2 <;> subst h3 <;>
    exact ⟨rfl, rfl⟩

/-- Witness for C6 at the default weights on the scenario table. -/
theorem weights_idempotent_witness :
    (|(6:ℚ)/10 + 4/10 - 1| ≤ 1/1000) ∧
    ((Response.mk
        [⟨"Networking", 2, 25/2, 31/5⟩, ⟨"DB Normalization", 2, 10, 26/5⟩]
        ⟨3/5, 2/5⟩ none none).warning = none ∧
     (Response.mk
        [⟨"Networking", 2, 25/2, 31/5⟩, ⟨"DB Normalization", 2, 10, 26/5⟩]
        ⟨3/5, 2/5⟩ none none).weights_used =
       ⟨roundTo 3 ((6:ℚ)/10), roundTo 3 ((4:ℚ)/10)⟩) :=
  ⟨by decide, weights_idempotent (6/10) (4/10) scenarioDb 1 _
    (by decide) (by decide)⟩

/-- Claim C7: for a subject with at least one question, the frequencies in a
successful response sum to the number of question rows stored for that
subject. -/
theorem frequency_sum_eq_count (db : List Question) (sid : ℤ) (fw mw : ℚ)
    (resp : Response)
    (hne : db.filter (fun q => decide (q.subject_id = sid)) ≠ [])
    (h : calculate_priority_scores (.ok db) sid fw mw = .ok resp) :
    (resp.topics.map (fun t => t.frequency)).sum =
      (db.filter (fun q => decide (q.subject_id = sid))).length := by
  rcases calculate_ok_inv h with ⟨nfw, nmw, w, hn, ⟨hq, rfl⟩ | ⟨hq, rfl⟩⟩
  · exact absurd ((queryResults_eq_nil_iff db sid).mp hq) hne
  · have hperm :=
      (sortByScoreDesc_perm (scoreRows (queryResults db sid) nfw nmw)).map
        (fun t => t.frequency)
    have hmm : (scoreRows (queryResults db sid) nfw nmw).map
        (fun t => t.frequency) = (queryResults db sid).map (fun r => r.frequency) := by
      unfold scoreRows
      rw [List.map_map]
      rfl
    show ((sortByScoreDesc (scoreRows (queryResults db sid) nfw nmw)).map
      (fun t => t.frequency)).sum = _
    rw [hperm.sum_eq, hmm, queryResults_map_frequency]

/-- Witness for C7 at the concrete scenario (2 + 2 = 4 questions). -/
theorem frequency_sum_eq_count_witness :
    (([⟨"Networking", 2, 25/2, 31/5⟩, ⟨"DB Normalization", 2, 10, 26/5⟩] :
        List TopicScore).map (fun t => t.frequency)).sum =
      (scenarioDb.filter (fun q => decide (q.subject_id = 1))).length :=
  frequency_sum_eq_count scenarioDb 1 (6/10) (4/10)
    ⟨[⟨"Networking", 2, 25/2, 31/5⟩, ⟨"DB Normalization", 2, 10, 26/5⟩],
      ⟨3/5, 2/5⟩, none, none⟩ (by decide) (by decide)

/-- Claim C8: every topic entry of a successful response reports as
`avg_marks_per_year` the plain arithmetic mean of `marks` over exactly the
rows sharing that `(subject_id, topic)` pair — not partitioned by year —
rounded to 2 decimal places. -/
theorem avg_marks_is_mean (db : List Question) (sid : ℤ) (fw mw : ℚ)
    (resp : Response) (ts : TopicScore)
    (h : calculate_priority_scores (.ok db) sid fw mw = .ok resp)
    (ht : ts ∈ resp.topics) :
    ts.avg_marks_per_year = roundTo 2
      (((db.filter (fun q => decide (q.subject_id = sid ∧ q.topic = ts.topic))).map
          (fun q => q.marks)).sum /
        ((db.filter
            (fun q => decide (q.subject_id = sid ∧ q.topic = ts.topic))).length : ℚ)) := by
  rcases calculate_ok_inv h with ⟨nfw, nmw, w, hn, ⟨hq, rfl⟩ | ⟨hq, rfl⟩⟩
  · cases ht
  · have ht' : ts ∈ scoreRows (queryResults db sid) nfw nmw :=
      (sortByScoreDesc_perm _).mem_iff.mp ht
    unfold scoreRows at ht'
    rcases List.mem_map.mp ht' with ⟨r, hr, rfl⟩
    unfold queryResults at hr
    rcases List.mem_map.mp hr with ⟨s, hs, rfl⟩
    have hgg : (db.filter (fun q => decide (q.subject_id = sid))).filter
          (fun q => decide (q.topic = s)) =
        db.filter (fun q => decide (q.subject_id = sid ∧ q.topic = s)) := by
      rw [List.filter_filter]
      apply List.filter_congr
      intro q _
      simp [Bool.and_comm]
    show roundTo 2 _ = roundTo 2 _
    rw [← hgg]

/-- Witness for C8: the Networking entry of the concrete scenario. -/
theorem avg_marks_is_mean_witness :
    (TopicScore.mk "Networking" 2 (25/2) (31/5)).avg_marks_per_year = roundTo 2
      (((scenarioDb.filter (fun q =>
            decide (q.subject_id = 1 ∧ q.topic = "Networking"))).map
          (fun q => q.marks)).sum /
        ((scenarioDb.filter (fun q =>
            decide (q.subject_id = 1 ∧ q.topic = "Networking"))).length : ℚ)) :=
  avg_marks_is_mean scenarioDb 1 (6/10) (4/10)
    ⟨[⟨"Networking", 2, 25/2, 31/5⟩, ⟨"DB Normalization", 2, 10, 26/5⟩],
      ⟨3/5, 2/5⟩, none, none⟩ ⟨"Networking", 2, 25/2, 31/5⟩
    (by decide) (by decide)

/-- Claim C9: when the storage fetch of questions fails, the failure
propagates to the caller as the distinguishable `dbError` retrieval error
carrying the storage message — never an empty result or any other
successful response. There is no exception handler anywhere between the
query and the route return (`app/routes/priority.py` delegates directly).
The hypothesis `fw + mw ≠ 0` sets aside the weight `ZeroDivisionError`,
which would be raised at line 19 before the fetch is ever attempted. -/
theorem fetch_failure_propagates (e : String) (sid : ℤ) (fw mw : ℚ)
    (hw : fw + mw ≠ 0) :
    calculate_priority_scores (.error e) sid fw mw = .error (.dbError e) := by
  rcases normalizeWeights_ok_of_ne hw with ⟨nfw, nmw, w, hn⟩
  unfold calculate_priority_scores
  rw [hn]

/-- Witness for C9 with a concrete storage failure. -/
theorem fetch_failure_propagates_witness :
    calculate_priority_scores (.error "database unavailable") 1 (6/10) (4/10) =
      .error (.dbError "database unavailable") :=
  fetch_failure_propagates "database unavailable" 1 (6/10) (4/10) (by decide)

/-- Claim C10: weights summing to zero always trip the tolerance test and
the division at line 19 raises `ZeroDivisionError` — before any question
data is consulted, which is why the statement holds for every `db`,
including a failing storage collaborator; and no other weight pair can
produce that error. -/
theorem zero_weight_sum_division (db : Except String (List Question))
    (sid : ℤ) (fw mw : ℚ) :
    (fw + mw = 0 →
      calculate_priority_scores db sid fw mw = .error .zeroDivision) ∧
    (fw + mw ≠ 0 →
      calculate_priority_scores db sid fw mw ≠ .error .zeroDivision) := by
  constructor
  · intro h0
    unfold calculate_priority_scores
    rw [normalizeWeights_zero h0]
  · intro h0
    rcases normalizeWeights_ok_of_ne h0 with ⟨nfw, nmw, w, hn⟩
    unfold calculate_priority_scores
    rw [hn]
    rcases db with msg | table
    · simp
    · dsimp only
      split <;> simp

/-- Witness for C10: weights (0.5, -0.5) fail with division by zero while
(0.6, 0.4) never produce that error, on the same empty table. -/
theorem zero_weight_sum_division_witness :
    calculate_priority_scores (.ok []) 1 (1/2) (-(1/2)) =
      .error .zeroDivision ∧
    calculate_priority_scores (.ok []) 1 (6/10) (4/10) ≠
      .error .zeroDivision :=
  ⟨(zero_weight_sum_division (.ok []) 1 (1/2) (-(1/2))).1 (by decide),
   (zero_weight_sum_division (.ok []) 1 (6/10) (4/10)).2 (by decide)⟩
